import Mathlib

/-!
Shallow embedding of `react-native-accessibility-services-detector`.

Embedded sources:
* `android/.../AccessibilityServicesDetectorModule.kt` — the native Android
  module (`Native.*` below): the `isListening` flag, the state-change
  listener registration guarded by API level 33 (TIRAMISU), the
  enumeration helpers and `getFeedbackTypeNames`.
* the TypeScript wrapper (`AccessibilityServicesDetectorWrapper`,
  `Wrapper.*` below): `listenerCount`, the `listeners` array, the wrapped
  `subscription.remove`, and the platform guards.

Promises are modelled by `PResult` (resolve / reject); the JS number
`listenerCount` is modelled as `Int` (it can go negative); the
single-threaded event loop is modelled by sequential state passing, with
one explicit interleaving (`Wrapper.backToBackAdd`) for the two
back-to-back `addAccessibilityServicesListener` calls.
-/

namespace ASD

/-- Outcome of a native call that settles a Promise. -/
inductive PResult (α : Type) where
  | resolve : α → PResult α
  | reject : String → String → PResult α
deriving Repr, DecidableEq

/-- Android `AccessibilityServiceInfo` feedback flag: spoken. -/
def FEEDBACK_SPOKEN : Nat := 1
/-- Android feedback flag: haptic. -/
def FEEDBACK_HAPTIC : Nat := 2
/-- Android feedback flag: audible. -/
def FEEDBACK_AUDIBLE : Nat := 4
/-- Android feedback flag: visual. -/
def FEEDBACK_VISUAL : Nat := 8
/-- Android feedback flag: generic. -/
def FEEDBACK_GENERIC : Nat := 16
/-- Android feedback flag: braille. -/
def FEEDBACK_BRAILLE : Nat := 32

/-- `ApplicationInfo.FLAG_SYSTEM`. -/
def FLAG_SYSTEM : Nat := 1
/-- `ApplicationInfo.FLAG_UPDATED_SYSTEM_APP`. -/
def FLAG_UPDATED_SYSTEM_APP : Nat := 128

/-- An OS-provided enabled-service record, as read by
`createServiceInfoMap` from `AccessibilityServiceInfo` and its resolve
info (labels already resolved by the package manager). -/
structure OsService where
  id : String
  label : String
  appLabel : String
  packageName : String
  serviceName : String
  feedbackType : Nat
  isAccessibilityTool : Bool
  appFlags : Nat
  sourceDir : String
deriving Repr, DecidableEq

/-- The map built by `createServiceInfoMap` (the `WritableMap` pushed to
JS).  Note that the Kotlin code stores the `feedbackTypeNames` entry with
`putString`: the field is a single string. -/
structure ServiceMap where
  id : String
  label : String
  appLabel : String
  packageName : String
  serviceName : String
  feedbackType : Nat
  feedbackTypeNames : String
  isAccessibilityTool : Bool
  sourceDir : String
  isSystemApp : Bool
deriving Repr, DecidableEq

/-- Kotlin `isSystemApp`: true when `FLAG_SYSTEM` or
`FLAG_UPDATED_SYSTEM_APP` is set in the application flags. -/
def isSystemApp (appFlags : Nat) : Bool :=
  decide (appFlags &&& FLAG_SYSTEM ≠ 0) || decide (appFlags &&& FLAG_UPDATED_SYSTEM_APP ≠ 0)

/-- Kotlin `getFeedbackTypeNames`: builds the list of human-readable
feedback names for the set bits, appending `"None"` when no bit is set.
(This private helper exists in the module but is never called.) -/
def getFeedbackTypeNames (feedbackType : Nat) : List String :=
  let names : List String := []
  let names := if feedbackType &&& FEEDBACK_SPOKEN ≠ 0 then names ++ ["Spoken"] else names
  let names := if feedbackType &&& FEEDBACK_HAPTIC ≠ 0 then names ++ ["Haptic"] else names
  let names := if feedbackType &&& FEEDBACK_AUDIBLE ≠ 0 then names ++ ["Audible"] else names
  let names := if feedbackType &&& FEEDBACK_VISUAL ≠ 0 then names ++ ["Visual"] else names
  let names := if feedbackType &&& FEEDBACK_GENERIC ≠ 0 then names ++ ["Generic"] else names
  let names := if feedbackType &&& FEEDBACK_BRAILLE ≠ 0 then names ++ ["Braille"] else names
  if names.isEmpty then ["None"] else names

/-- Kotlin `createServiceInfoMap`.  The `feedbackTypeNames` entry is set
to `AccessibilityServiceInfo.feedbackTypeToString(feedbackType)` — an
Android framework function, passed in here as the parameter `fts` — not
to the module's own `getFeedbackTypeNames`. -/
def createServiceInfoMap (fts : Nat → String) (svc : OsService) : ServiceMap :=
  { id := svc.id
    label := svc.label
    appLabel := svc.appLabel
    packageName := svc.packageName
    serviceName := svc.serviceName
    feedbackType := svc.feedbackType
    feedbackTypeNames := fts svc.feedbackType
    isAccessibilityTool := svc.isAccessibilityTool
    sourceDir := svc.sourceDir
    isSystemApp := isSystemApp svc.appFlags }

/-- Environment of the native module: the device API level, which OS
calls throw, and the OS accessibility-service registry. -/
structure NativeEnv where
  apiLevel : Nat
  armThrows : Bool
  disarmThrows : Bool
  enumThrows : Bool
  services : List OsService
deriving Repr, DecidableEq

/-- Mutable state of `AccessibilityServicesDetectorModule`:
`isListening`, the stored `accessibilityServicesStateChangeListener`
(`none` when null), plus two ghost counters: `armCount` counts
`addAccessibilityServicesStateChangeListener` registrations and
`startCalls` counts invocations of native `startListening`. -/
structure NativeState where
  isListening : Bool
  changeListener : Option Nat
  armCount : Nat
  startCalls : Nat
deriving Repr, DecidableEq

/-- Initial native-module state. -/
def NativeState.init : NativeState :=
  { isListening := false, changeListener := none, armCount := 0, startCalls := 0 }

namespace Native

/-- Kotlin `startListening`: no-op when already listening; on API ≥ 33
assigns the listener field, registers it (which may throw, caught into a
rejection), and sets `isListening`; on API < 33 logs a warning and
resolves without registering anything. -/
def startListening (env : NativeEnv) (s : NativeState) : PResult Unit × NativeState :=
  let s := { s with startCalls := s.startCalls + 1 }
  if s.isListening then
    (PResult.resolve (), s)
  else if 33 ≤ env.apiLevel then
    -- the listener field is assigned before the registration call
    let s := { s with changeListener := some s.armCount }
    if env.armThrows then
      (PResult.reject "START_LISTENING_ERROR"
        "Failed to start listening for accessibility services changes", s)
    else
      (PResult.resolve (), { s with armCount := s.armCount + 1, isListening := true })
  else
    (PResult.resolve (), s)

/-- Kotlin `stopListening`: no-op when not listening or no stored
listener; on API ≥ 33 unregisters (which may throw, caught into a
rejection before the fields are cleared); then clears the listener field
and the flag. -/
def stopListening (env : NativeEnv) (s : NativeState) : PResult Unit × NativeState :=
  if ¬ s.isListening ∨ s.changeListener = none then
    (PResult.resolve (), s)
  else if 33 ≤ env.apiLevel then
    if env.disarmThrows then
      (PResult.reject "STOP_LISTENING_ERROR"
        "Failed to stop listening for accessibility services changes", s)
    else
      (PResult.resolve (), { s with changeListener := none, isListening := false })
  else
    -- API < 33: logs a warning, still clears the field and the flag
    (PResult.resolve (), { s with changeListener := none, isListening := false })

/-- Kotlin `getIsListening` (blocking synchronous method). -/
def getIsListening (s : NativeState) : Bool :=
  s.isListening

/-- Kotlin `getEnabledAccessibilityServicesInfo`: the enumeration call
sits inside a try/catch whose catch logs the error and falls through to
returning the (empty) accumulated list. -/
def getEnabledAccessibilityServicesInfo (fts : Nat → String) (env : NativeEnv) :
    List ServiceMap :=
  if env.enumThrows then [] else env.services.map (createServiceInfoMap fts)

/-- Kotlin `getEnabledAccessibilityServices(promise)`: builds the result
array from the helper and resolves.  Its own catch (`GET_SERVICES_ERROR`)
only fires for failures while building the array, which cannot happen
here; an enumeration failure is already swallowed by the helper. -/
def getEnabledAccessibilityServices (fts : Nat → String) (env : NativeEnv) :
    PResult (List ServiceMap) :=
  PResult.resolve (getEnabledAccessibilityServicesInfo fts env)

/-- Kotlin `hasEnabledAccessibilityServices(promise)`: resolves whether
the helper's list is non-empty. -/
def hasEnabledAccessibilityServices (fts : Nat → String) (env : NativeEnv) :
    PResult Bool :=
  PResult.resolve (!(getEnabledAccessibilityServicesInfo fts env).isEmpty)

end Native

/-- Environment of the wrapper: `Platform.OS` plus the native
environment. -/
structure Env where
  os : String
  native : NativeEnv
deriving Repr, DecidableEq

/-- Combined state seen by the TypeScript wrapper: the native module
state, the wrapper's `listenerCount` (a JS number, so `Int`) and
`listeners` array, the event emitter's live subscriptions for
`"AccessibilityServicesChanged"`, and a fresh-id counter for
subscriptions. -/
structure SysState where
  native : NativeState
  listenerCount : Int
  listeners : List Nat
  emitter : List Nat
  nextId : Nat
deriving Repr, DecidableEq

/-- Initial wrapper state. -/
def SysState.init : SysState :=
  { native := NativeState.init, listenerCount := 0, listeners := [], emitter := [], nextId := 0 }

namespace Wrapper

/-- The non-suspending tail of `addAccessibilityServicesListener`:
`eventEmitter.addListener`, `this.listeners.push(subscription)`,
`this.listenerCount++`.  Returns the new subscription's id. -/
def registerSub (s : SysState) : Nat × SysState :=
  (s.nextId,
    { s with
        emitter := s.emitter ++ [s.nextId]
        listeners := s.listeners ++ [s.nextId]
        listenerCount := s.listenerCount + 1
        nextId := s.nextId + 1 })

/-- The wrapped `subscription.remove` closure: runs the original
emitter removal, decrements `listenerCount`, and if the count reached 0
fires a fire-and-forget native `stopListening` whose rejection is only
logged (`.catch`). -/
def subscriptionRemove (env : Env) (sid : Nat) (s : SysState) : SysState :=
  let s := { s with emitter := s.emitter.erase sid, listenerCount := s.listenerCount - 1 }
  if s.listenerCount = 0 then
    { s with native := (Native.stopListening env.native s.native).2 }
  else s

/-- Resumption of `addAccessibilityServicesListener` after the awaited
native `startListening` settles: a rejection is caught, logged, and
turned into a resolved `null`; otherwise the subscription is created. -/
def resumeAdd (r : PResult Unit) (s : SysState) : PResult (Option Nat) × SysState :=
  match r with
  | PResult.reject _ _ => (PResult.resolve none, s)
  | PResult.resolve _ =>
    let (sid, s) := registerSub s
    (PResult.resolve (some sid), s)

/-- TS `addAccessibilityServicesListener` run to completion with no
interleaved operation: platform guard, first-listener arm (awaited,
failures caught into a resolved `null`), then registration. -/
def addAccessibilityServicesListener (env : Env) (s : SysState) :
    PResult (Option Nat) × SysState :=
  if env.os ≠ "android" then
    (PResult.resolve none, s)
  else if s.listenerCount = 0 then
    let (r, n) := Native.startListening env.native s.native
    resumeAdd r { s with native := n }
  else
    resumeAdd (PResult.resolve ()) s

/-- TS `startListening`: platform guard, then the native call's promise
is returned as-is. -/
def startListening (env : Env) (s : SysState) : PResult Unit × SysState :=
  if env.os ≠ "android" then
    (PResult.resolve (), s)
  else
    let (r, n) := Native.startListening env.native s.native
    (r, { s with native := n })

/-- TS `stopListening`: platform guard; awaits the native stop — whose
rejection is caught, logged, and re-raised via `Promise.reject`, skipping
the cleanup — then removes every stored listener via its wrapped
`remove`, empties the array and zeroes the count. -/
def stopListening (env : Env) (s : SysState) : PResult Unit × SysState :=
  if env.os ≠ "android" then
    (PResult.resolve (), s)
  else
    match Native.stopListening env.native s.native with
    | (PResult.reject c m, n) => (PResult.reject c m, { s with native := n })
    | (PResult.resolve _, n) =>
      let s := { s with native := n }
      let s := s.listeners.foldl (fun st sid => subscriptionRemove env sid st) s
      (PResult.resolve (), { s with listeners := [], listenerCount := 0 })

/-- TS `removeAccessibilityServicesListener`: platform guard, then
`subscription?.remove()`. -/
def removeAccessibilityServicesListener (env : Env) (sub : Option Nat) (s : SysState) :
    SysState :=
  if env.os ≠ "android" then s
  else
    match sub with
    | none => s
    | some sid => subscriptionRemove env sid s

/-- TS `getListenerCount`: 0 off-Android, else the counter. -/
def getListenerCount (env : Env) (s : SysState) : Int :=
  if env.os ≠ "android" then 0 else s.listenerCount

/-- TS `getIsListening`: false off-Android, else the native flag. -/
def getIsListening (env : Env) (s : SysState) : Bool :=
  if env.os ≠ "android" then false else Native.getIsListening s.native

/-- TS `getEnabledAccessibilityServices`: `[]` off-Android, else the
native query. -/
def getEnabledAccessibilityServices (env : Env) (fts : Nat → String) :
    PResult (List ServiceMap) :=
  if env.os ≠ "android" then PResult.resolve []
  else Native.getEnabledAccessibilityServices fts env.native

/-- TS `hasEnabledAccessibilityServices`: `false` off-Android, else the
native query. -/
def hasEnabledAccessibilityServices (env : Env) (fts : Nat → String) :
    PResult Bool :=
  if env.os ≠ "android" then PResult.resolve false
  else Native.hasEnabledAccessibilityServices fts env.native

/-- Two `addAccessibilityServicesListener` calls issued back-to-back:
the second call runs its synchronous prefix (the `listenerCount` check)
while the first is suspended at its `await`.  When the initial count is
0 both observe 0, so both invoke native `startListening`; the native
module executes the two calls serially; then each call's continuation
runs in order. -/
def backToBackAdd (env : Env) (s : SysState) :
    (PResult (Option Nat) × PResult (Option Nat)) × SysState :=
  if env.os ≠ "android" then
    ((PResult.resolve none, PResult.resolve none), s)
  else if s.listenerCount = 0 then
    let (r1, n1) := Native.startListening env.native s.native
    let (r2, n2) := Native.startListening env.native n1
    let s := { s with native := n2 }
    let (res1, s) := resumeAdd r1 s
    let (res2, s) := resumeAdd r2 s
    ((res1, res2), s)
  else
    -- neither call suspends at an arm, they just run one after the other
    let (res1, s) := resumeAdd (PResult.resolve ()) s
    let (res2, s) := resumeAdd (PResult.resolve ()) s
    ((res1, res2), s)

end Wrapper

/-- A caller-visible operation on the listener registry, for trace
properties: an `addAccessibilityServicesListener` call or a
`subscription.remove()` call on the subscription with the given id. -/
inductive Op where
  | add : Op
  | rem : Nat → Op
deriving Repr, DecidableEq

/-- One trace step (result value discarded). -/
def step (env : Env) (s : SysState) : Op → SysState
  | Op.add => (Wrapper.addAccessibilityServicesListener env s).2
  | Op.rem sid => Wrapper.subscriptionRemove env sid s

/-- Run a whole trace. -/
def run (env : Env) : List Op → SysState → SysState
  | [], s => s
  | op :: ops, s => run env ops (step env s op)

/-- A trace is well-behaved when every `remove()` targets a subscription
that is currently live (created earlier and not yet removed) — i.e. no
subscription's `remove()` is called twice. -/
def wfOps (env : Env) : List Op → SysState → Bool
  | [], _ => true
  | Op.add :: ops, s => wfOps env ops (step env s Op.add)
  | Op.rem sid :: ops, s =>
    decide (sid ∈ s.emitter) && wfOps env ops (step env s (Op.rem sid))

/-- Number of `addAccessibilityServicesListener` calls in a trace. -/
def numAdds : List Op → Nat
  | [] => 0
  | Op.add :: ops => numAdds ops + 1
  | Op.rem _ :: ops => numAdds ops

/-- Number of `remove()` calls in a trace. -/
def numRems : List Op → Nat
  | [] => 0
  | Op.add :: ops => numRems ops
  | Op.rem _ :: ops => numRems ops + 1

/-- Environments in which the listener machinery is exercised on its
intended path: Android, API ≥ 33, and the OS monitor calls succeed. -/
def GoodEnv (env : Env) : Prop :=
  env.os = "android" ∧ 33 ≤ env.native.apiLevel ∧
    env.native.armThrows = false ∧ env.native.disarmThrows = false

instance : DecidablePred GoodEnv := fun env => by
  unfold GoodEnv; infer_instance

/-- State invariant of the multiplexer on the intended path: the counter
matches the emitter's subscriber list, the native flag matches
non-emptiness, a listening module holds a registered listener, and all
live ids are below the fresh-id counter. -/
def Inv (s : SysState) : Prop :=
  s.listenerCount = (s.emitter.length : Int) ∧
    (s.native.isListening = true ↔ s.emitter ≠ []) ∧
    (s.native.isListening = true → s.native.changeListener ≠ none) ∧
    (∀ i ∈ s.emitter, i < s.nextId)

lemma inv_init : Inv SysState.init := by
  refine ⟨rfl, by simp [SysState.init, NativeState.init, Native.getIsListening], ?_, by simp [SysState.init]⟩
  intro h
  simp [SysState.init, NativeState.init] at h

lemma add_step (env : Env) (h : GoodEnv env) (s : SysState) (hinv : Inv s) :
    Inv (step env s Op.add) ∧
      (step env s Op.add).listenerCount = s.listenerCount + 1 := by
  obtain ⟨hos, hapi, harm, hdis⟩ := h
  obtain ⟨hcnt, hlis, hcl, hbound⟩ := hinv
  by_cases h0 : s.listenerCount = 0
  · have hemp : s.emitter = [] := by
      rw [h0] at hcnt
      exact List.length_eq_zero.mp (by exact_mod_cast hcnt.symm)
    have hnl : s.native.isListening = false := by
      cases hb : s.native.isListening
      · rfl
      · exact absurd (hlis.mp hb) (by simp [hemp])
    simp only [step, Wrapper.addAccessibilityServicesListener, hos, ne_eq, not_true_eq_false,
      if_false, h0, if_true, Native.startListening, hnl, Bool.false_eq_true, hapi, harm,
      Wrapper.resumeAdd, Wrapper.registerSub, ite_true, ite_false]
    refine ⟨⟨?_, ?_, ?_, ?_⟩, ?_⟩
    · simp [hemp, h0]
    · simp [hemp]
    · simp
    · simp [hemp]
    · simp [h0]
  · have hne : s.emitter ≠ [] := by
      intro he
      rw [he] at hcnt
      exact h0 (by simpa using hcnt)
    have hl : s.native.isListening = true := hlis.mpr hne
    simp only [step, Wrapper.addAccessibilityServicesListener, hos, ne_eq, not_true_eq_false,
      if_false, h0, Wrapper.resumeAdd, Wrapper.registerSub, ite_false]
    refine ⟨⟨?_, ?_, ?_, ?_⟩, ?_⟩
    · simp [hcnt]
    · simp [hl]
    · intro _; exact hcl hl
    · intro i hi
      simp only [List.mem_append, List.mem_singleton] at hi
      rcases hi with hi | hi
      · exact Nat.lt_succ_of_lt (hbound i hi)
      · simp [hi]
    · trivial

lemma rem_step (env : Env) (h : GoodEnv env) (s : SysState) (sid : Nat)
    (hmem : sid ∈ s.emitter) (hinv : Inv s) :
    Inv (step env s (Op.rem sid)) ∧
      (step env s (Op.rem sid)).listenerCount = s.listenerCount - 1 := by
  obtain ⟨hos, hapi, harm, hdis⟩ := h
  obtain ⟨hcnt, hlis, hcl, hbound⟩ := hinv
  have hne : s.emitter ≠ [] := List.ne_nil_of_mem hmem
  have hl : s.native.isListening = true := hlis.mpr hne
  have hlen : (s.emitter.erase sid).length = s.emitter.length - 1 :=
    List.length_erase_of_mem hmem
  have hpos : 0 < s.emitter.length := List.length_pos.mpr hne
  have hclne : s.native.changeListener ≠ none := hcl hl
  by_cases hz : s.listenerCount - 1 = 0
  · have hlen0 : (s.emitter.erase sid).length = 0 := by omega
    have hempE : s.emitter.erase sid = [] := List.length_eq_zero.mp hlen0
    have hstop : Native.stopListening env.native s.native =
        (PResult.resolve (), { s.native with changeListener := none, isListening := false }) := by
      simp [Native.stopListening, hl, hclne, hapi, hdis]
    have hstep : step env s (Op.rem sid) =
        { s with emitter := s.emitter.erase sid, listenerCount := s.listenerCount - 1,
                 native := { s.native with changeListener := none, isListening := false } } := by
      simp only [step, Wrapper.subscriptionRemove, hstop]
      rw [if_pos hz]
    rw [hstep]
    refine ⟨⟨?_, ?_, ?_, ?_⟩, rfl⟩
    · simp only [hempE, List.length_nil, Nat.cast_zero]
      exact hz
    · simp [hempE]
    · simp
    · intro i hi
      exact hbound i (List.mem_of_mem_erase hi)
  · have hstep : step env s (Op.rem sid) =
        { s with emitter := s.emitter.erase sid, listenerCount := s.listenerCount - 1 } := by
      simp only [step, Wrapper.subscriptionRemove]
      rw [if_neg hz]
    have hneE : s.emitter.erase sid ≠ [] := by
      intro he
      rw [he] at hlen
      simp at hlen
      omega
    rw [hstep]
    refine ⟨⟨?_, ?_, ?_, ?_⟩, rfl⟩
    · simp only [hlen]
      omega
    · simp only [hl, true_iff]
      exact hneE
    · intro _; exact hclne
    · intro i hi
      exact hbound i (List.mem_of_mem_erase hi)

lemma run_spec (env : Env) (h : GoodEnv env) (ops : List Op) :
    ∀ (s : SysState), Inv s → wfOps env ops s = true →
      Inv (run env ops s) ∧
        (run env ops s).listenerCount =
          s.listenerCount + (numAdds ops : Int) - (numRems ops : Int) := by
  induction ops with
  | nil =>
    intro s hinv _
    exact ⟨hinv, by simp [run, numAdds, numRems]⟩
  | cons op ops ih =>
    intro s hinv hwf
    cases op with
    | add =>
      have hwf2 : wfOps env ops (step env s Op.add) = true := by
        simpa [wfOps] using hwf
      obtain ⟨hinv2, hc2⟩ := add_step env h s hinv
      obtain ⟨hinv3, hc3⟩ := ih (step env s Op.add) hinv2 hwf2
      refine ⟨by simpa [run] using hinv3, ?_⟩
      have : (run env (Op.add :: ops) s) = run env ops (step env s Op.add) := rfl
      rw [this, hc3, hc2]
      simp [numAdds, numRems]
      omega
    | rem sid =>
      have hwf' := hwf
      simp only [wfOps, Bool.and_eq_true, decide_eq_true_eq] at hwf'
      obtain ⟨hmem, hwf2⟩ := hwf'
      obtain ⟨hinv2, hc2⟩ := rem_step env h s sid hmem hinv
      obtain ⟨hinv3, hc3⟩ := ih (step env s (Op.rem sid)) hinv2 hwf2
      refine ⟨by simpa [run] using hinv3, ?_⟩
      have : (run env (Op.rem sid :: ops) s) = run env ops (step env s (Op.rem sid)) := rfl
      rw [this, hc3, hc2]
      simp [numAdds, numRems]
      omega

/-- A sample environment: Android, API level 33, all OS calls succeed,
no service enabled. -/
def envAndroid33 : Env :=
  { os := "android"
    native := { apiLevel := 33, armThrows := false, disarmThrows := false,
                enumThrows := false, services := [] } }

/-- Like `envAndroid33`, but API level 32 (below TIRAMISU). -/
def envAndroid32 : Env :=
  { os := "android"
    native := { apiLevel := 32, armThrows := false, disarmThrows := false,
                enumThrows := false, services := [] } }

/-- Claim C1 (counterexample): the claim fails as stated.  (a) On
Android API 32, after the single call `add`, `getListenerCount` is 1 —
one subscription added and not removed — yet `getIsListening` is false,
violating the claimed equivalence.  (b) On Android API 33, calling the
first subscription's `remove()` twice drives `getListenerCount` to −1
although the number of added-and-not-removed subscriptions is 0. -/
theorem c1_counterexample :
    (Wrapper.getListenerCount envAndroid32 (run envAndroid32 [Op.add] SysState.init) = 1 ∧
      Wrapper.getIsListening envAndroid32 (run envAndroid32 [Op.add] SysState.init) = false) ∧
    ((run envAndroid33 [Op.add, Op.rem 0, Op.rem 0] SysState.init).emitter = [] ∧
      Wrapper.getListenerCount envAndroid33
        (run envAndroid33 [Op.add, Op.rem 0, Op.rem 0] SysState.init) = -1) := by
  decide

/-- Claim C1 (amended): on Android API ≥ 33 with the native monitor
calls succeeding, for every finite sequence of
`addAccessibilityServicesListener` and `subscription.remove()` calls in
which each subscription's `remove()` is called at most once (each remove
targets a live subscription), after the sequence completes (including
the fire-and-forget native stop) `getListenerCount()` equals the number
of subscriptions added and not removed, and `getIsListening()` is true
iff that number is positive. -/
theorem c1_reference_counting (env : Env) (ops : List Op)
    (h : GoodEnv env) (hwf : wfOps env ops SysState.init = true) :
    Wrapper.getListenerCount env (run env ops SysState.init) =
        (numAdds ops : Int) - (numRems ops : Int) ∧
      (Wrapper.getIsListening env (run env ops SysState.init) = true ↔
        0 < (numAdds ops : Int) - (numRems ops : Int)) := by
  obtain ⟨⟨hcnt, hlis, -, -⟩, hc⟩ := run_spec env h ops SysState.init inv_init hwf
  obtain ⟨hos, -, -, -⟩ := h
  have hcount : Wrapper.getListenerCount env (run env ops SysState.init) =
      (run env ops SysState.init).listenerCount := by
    simp [Wrapper.getListenerCount, hos]
  have hinit : SysState.init.listenerCount = 0 := rfl
  constructor
  · rw [hcount, hc, hinit]
    ring
  · have hlisten : Wrapper.getIsListening env (run env ops SysState.init) =
        (run env ops SysState.init).native.isListening := by
      simp [Wrapper.getIsListening, Native.getIsListening, hos]
    rw [hlisten]
    rw [hlis]
    constructor
    · intro hne
      have hpos : 0 < (run env ops SysState.init).emitter.length :=
        List.length_pos.mpr hne
      rw [hinit] at hc
      omega
    · intro hpos
      rw [hinit] at hc
      have : 0 < (run env ops SysState.init).emitter.length := by omega
      exact List.length_pos.mp this

/-- Witness for `c1_reference_counting` at a concrete environment and
trace. -/
theorem c1_reference_counting_witness :
    GoodEnv envAndroid33 ∧
    wfOps envAndroid33 [Op.add, Op.rem 0, Op.add] SysState.init = true ∧
    (Wrapper.getListenerCount envAndroid33
          (run envAndroid33 [Op.add, Op.rem 0, Op.add] SysState.init) =
        (numAdds [Op.add, Op.rem 0, Op.add] : Int) - (numRems [Op.add, Op.rem 0, Op.add] : Int) ∧
      (Wrapper.getIsListening envAndroid33
            (run envAndroid33 [Op.add, Op.rem 0, Op.add] SysState.init) = true ↔
        0 < (numAdds [Op.add, Op.rem 0, Op.add] : Int) -
            (numRems [Op.add, Op.rem 0, Op.add] : Int))) :=
  ⟨by decide, by decide,
    c1_reference_counting envAndroid33 [Op.add, Op.rem 0, Op.add] (by decide) (by decide)⟩

/-- Claim C2 (counterexample): with two subscriptions on Android API 33,
calling the first subscription's `remove()` twice is observably
different from calling it once: `getListenerCount` drops to 0 (vs 1) and
`getIsListening` becomes false (vs true), because the second call
decrements the counter again and triggers the last-listener native stop
while the second subscriber is still registered; the emitter's
subscriber set itself is the same in both runs. -/
theorem c2_counterexample :
    Wrapper.getListenerCount envAndroid33
        (run envAndroid33 [Op.add, Op.add, Op.rem 0] SysState.init) = 1 ∧
    Wrapper.getIsListening envAndroid33
        (run envAndroid33 [Op.add, Op.add, Op.rem 0] SysState.init) = true ∧
    Wrapper.getListenerCount envAndroid33
        (run envAndroid33 [Op.add, Op.add, Op.rem 0, Op.rem 0] SysState.init) = 0 ∧
    Wrapper.getIsListening envAndroid33
        (run envAndroid33 [Op.add, Op.add, Op.rem 0, Op.rem 0] SysState.init) = false ∧
    (run envAndroid33 [Op.add, Op.add, Op.rem 0] SysState.init).emitter =
      (run envAndroid33 [Op.add, Op.add, Op.rem 0, Op.rem 0] SysState.init).emitter := by
  decide

/-- Claim C2 (amended): a second `remove()` on an already-removed
subscription is a no-op on the emitter's subscriber set, but not on the
wrapper: it decrements `getListenerCount` again (and, if the count
thereby reaches 0, fires another native stop). -/
theorem c2_second_remove (env : Env) (sid : Nat) (s : SysState)
    (h : sid ∉ s.emitter) :
    (Wrapper.subscriptionRemove env sid s).emitter = s.emitter ∧
    (Wrapper.subscriptionRemove env sid s).listenerCount = s.listenerCount - 1 := by
  simp only [Wrapper.subscriptionRemove, List.erase_of_not_mem h]
  by_cases hz : s.listenerCount - 1 = 0
  · rw [if_pos hz]; exact ⟨rfl, rfl⟩
  · rw [if_neg hz]; exact ⟨rfl, rfl⟩

/-- Witness for `c2_second_remove`. -/
theorem c2_second_remove_witness :
    (0 : Nat) ∉ SysState.init.emitter ∧
    ((Wrapper.subscriptionRemove envAndroid33 0 SysState.init).emitter =
        SysState.init.emitter ∧
      (Wrapper.subscriptionRemove envAndroid33 0 SysState.init).listenerCount =
        SysState.init.listenerCount - 1) :=
  ⟨by decide, c2_second_remove envAndroid33 0 SysState.init (by decide)⟩

/-- Like `envAndroid33`, but registering the OS state-change listener
throws. -/
def envArmFail : Env :=
  { os := "android"
    native := { apiLevel := 33, armThrows := true, disarmThrows := false,
                enumThrows := false, services := [] } }

/-- Like `envAndroid33`, but unregistering the OS state-change listener
throws. -/
def envDisarmFail : Env :=
  { os := "android"
    native := { apiLevel := 33, armThrows := false, disarmThrows := true,
                enumThrows := false, services := [] } }

/-- Claim C3 (counterexample): with the native arm failing on Android,
`addAccessibilityServicesListener` resolves with `null` instead of
rejecting — so a `null` return is not confined to unsupported
platforms, and the failure is not propagated to the caller. -/
theorem c3_counterexample :
    envArmFail.os = "android" ∧
    (Wrapper.addAccessibilityServicesListener envArmFail SysState.init).1 =
      PResult.resolve none := by
  decide

/-- Claim C3 (amended): if native `startListening` rejects during
`addAccessibilityServicesListener` on Android, the subscription is not
created and the listener count, listener array and subscriber set are
unchanged; but the failure is caught and logged and the call resolves
with `null`, so a `null` return also occurs on Android arm failure, not
only on unsupported platforms. -/
theorem c3_arm_failure (env : Env) (s : SysState)
    (hos : env.os = "android") (hcnt : s.listenerCount = 0)
    (hlisten : s.native.isListening = false)
    (hapi : 33 ≤ env.native.apiLevel) (harm : env.native.armThrows = true) :
    (Wrapper.addAccessibilityServicesListener env s).1 = PResult.resolve none ∧
    (Wrapper.addAccessibilityServicesListener env s).2.listenerCount = s.listenerCount ∧
    (Wrapper.addAccessibilityServicesListener env s).2.listeners = s.listeners ∧
    (Wrapper.addAccessibilityServicesListener env s).2.emitter = s.emitter := by
  simp [Wrapper.addAccessibilityServicesListener, hos, hcnt, Native.startListening,
    hlisten, hapi, harm, Wrapper.resumeAdd]

/-- Witness for `c3_arm_failure`. -/
theorem c3_arm_failure_witness :
    (envArmFail.os = "android" ∧ SysState.init.listenerCount = 0 ∧
      SysState.init.native.isListening = false ∧
      33 ≤ envArmFail.native.apiLevel ∧ envArmFail.native.armThrows = true) ∧
    ((Wrapper.addAccessibilityServicesListener envArmFail SysState.init).1 =
        PResult.resolve none ∧
      (Wrapper.addAccessibilityServicesListener envArmFail SysState.init).2.listenerCount =
        SysState.init.listenerCount ∧
      (Wrapper.addAccessibilityServicesListener envArmFail SysState.init).2.listeners =
        SysState.init.listeners ∧
      (Wrapper.addAccessibilityServicesListener envArmFail SysState.init).2.emitter =
        SysState.init.emitter) :=
  ⟨by decide,
    c3_arm_failure envArmFail SysState.init (by decide) (by decide) (by decide)
      (by decide) (by decide)⟩

/-- Claim C4 (counterexample): with one active subscription on Android
API 33 and the native disarm failing, wrapper `stopListening()` rejects
with `STOP_LISTENING_ERROR` and leaves the stored listeners and the
count untouched — the disarm failure is surfaced to the caller rather
than swallowed. -/
theorem c4_counterexample :
    (Wrapper.stopListening envDisarmFail
        (run envDisarmFail [Op.add] SysState.init)).1 =
      PResult.reject "STOP_LISTENING_ERROR"
        "Failed to stop listening for accessibility services changes" ∧
    (Wrapper.stopListening envDisarmFail
        (run envDisarmFail [Op.add] SysState.init)).2.listeners = [0] ∧
    Wrapper.getListenerCount envDisarmFail
        (Wrapper.stopListening envDisarmFail
          (run envDisarmFail [Op.add] SysState.init)).2 = 1 := by
  decide

/-- Claim C4 (amended): `subscription.remove()` never surfaces a disarm
failure — it is synchronous, the emitter removal and the count decrement
take effect regardless, and a rejection of its fire-and-forget native
stop is only logged; wrapper `stopListening()`, however, catches a
native disarm failure and re-raises it as a rejection, skipping the
subscription cleanup. -/
theorem c4_disarm_failure (env : Env) (sid : Nat) (s : SysState)
    (hos : env.os = "android")
    (hapi : 33 ≤ env.native.apiLevel) (hdis : env.native.disarmThrows = true)
    (hl : s.native.isListening = true) (hcl : s.native.changeListener ≠ none) :
    (Wrapper.subscriptionRemove env sid s).emitter = s.emitter.erase sid ∧
    (Wrapper.subscriptionRemove env sid s).listenerCount = s.listenerCount - 1 ∧
    (Wrapper.stopListening env s).1 =
      PResult.reject "STOP_LISTENING_ERROR"
        "Failed to stop listening for accessibility services changes" ∧
    (Wrapper.stopListening env s).2.listeners = s.listeners ∧
    (Wrapper.stopListening env s).2.listenerCount = s.listenerCount := by
  have hstop : Native.stopListening env.native s.native =
      (PResult.reject "STOP_LISTENING_ERROR"
        "Failed to stop listening for accessibility services changes", s.native) := by
    simp [Native.stopListening, hl, hcl, hapi, hdis]
  refine ⟨?_, ?_, ?_, ?_, ?_⟩
  · simp only [Wrapper.subscriptionRemove]
    by_cases hz : s.listenerCount - 1 = 0
    · rw [if_pos hz]
    · rw [if_neg hz]
  · simp only [Wrapper.subscriptionRemove]
    by_cases hz : s.listenerCount - 1 = 0
    · rw [if_pos hz]
    · rw [if_neg hz]
  · simp [Wrapper.stopListening, hos, hstop]
  · simp [Wrapper.stopListening, hos, hstop]
  · simp [Wrapper.stopListening, hos, hstop]

/-- Witness for `c4_disarm_failure`. -/
theorem c4_disarm_failure_witness :
    (envDisarmFail.os = "android" ∧ 33 ≤ envDisarmFail.native.apiLevel ∧
      envDisarmFail.native.disarmThrows = true ∧
      (run envDisarmFail [Op.add] SysState.init).native.isListening = true ∧
      (run envDisarmFail [Op.add] SysState.init).native.changeListener ≠ none) ∧
    ((Wrapper.subscriptionRemove envDisarmFail 0
          (run envDisarmFail [Op.add] SysState.init)).emitter =
        (run envDisarmFail [Op.add] SysState.init).emitter.erase 0 ∧
      (Wrapper.subscriptionRemove envDisarmFail 0
          (run envDisarmFail [Op.add] SysState.init)).listenerCount =
        (run envDisarmFail [Op.add] SysState.init).listenerCount - 1 ∧
      (Wrapper.stopListening envDisarmFail
          (run envDisarmFail [Op.add] SysState.init)).1 =
        PResult.reject "STOP_LISTENING_ERROR"
          "Failed to stop listening for accessibility services changes" ∧
      (Wrapper.stopListening envDisarmFail
          (run envDisarmFail [Op.add] SysState.init)).2.listeners =
        (run envDisarmFail [Op.add] SysState.init).listeners ∧
      (Wrapper.stopListening envDisarmFail
          (run envDisarmFail [Op.add] SysState.init)).2.listenerCount =
        (run envDisarmFail [Op.add] SysState.init).listenerCount) :=
  ⟨by decide,
    c4_disarm_failure envDisarmFail 0 (run envDisarmFail [Op.add] SysState.init)
      (by decide) (by decide) (by decide) (by decide) (by decide)⟩

/-- A sample enabled-service record with no feedback bit set. -/
def sampleService : OsService :=
  { id := "com.example/.DemoService"
    label := "Demo Service"
    appLabel := "Demo"
    packageName := "com.example"
    serviceName := "com.example.DemoService"
    feedbackType := 0
    isAccessibilityTool := false
    appFlags := 0
    sourceDir := "/data/app/com.example" }

/-- A stand-in for the Android framework's
`AccessibilityServiceInfo.feedbackTypeToString`. -/
def ftsStub : Nat → String := fun _ => "[]"

/-- Like `envAndroid33` but with one enabled service and the OS
enumeration call throwing. -/
def envEnumFail : Env :=
  { os := "android"
    native := { apiLevel := 33, armThrows := false, disarmThrows := false,
                enumThrows := true, services := [sampleService] } }

/-- Claim C5 (counterexample): with the OS enumeration call throwing
while one service is enabled, native `getEnabledAccessibilityServices`
resolves with the empty list — the failure is silently converted into a
resolved empty result instead of a rejection. -/
theorem c5_counterexample :
    envEnumFail.native.enumThrows = true ∧
    envEnumFail.native.services ≠ [] ∧
    Native.getEnabledAccessibilityServices ftsStub envEnumFail.native =
      PResult.resolve [] :=
  ⟨rfl, by decide, rfl⟩

/-- Claim C5 (amended): a failure of the OS enumeration call is caught
inside `getEnabledAccessibilityServicesInfo` and logged, and the query
resolves with an empty list (the boolean query with `false`); the outer
`GET_SERVICES_ERROR` rejection would fire only for failures outside that
helper, which the enumeration call cannot cause. -/
theorem c5_enum_failure (fts : Nat → String) (env : NativeEnv)
    (h : env.enumThrows = true) :
    Native.getEnabledAccessibilityServices fts env = PResult.resolve [] ∧
    Native.hasEnabledAccessibilityServices fts env = PResult.resolve false := by
  simp [Native.getEnabledAccessibilityServices, Native.hasEnabledAccessibilityServices,
    Native.getEnabledAccessibilityServicesInfo, h]

/-- Witness for `c5_enum_failure`. -/
theorem c5_enum_failure_witness :
    envEnumFail.native.enumThrows = true ∧
    (Native.getEnabledAccessibilityServices ftsStub envEnumFail.native =
        PResult.resolve [] ∧
      Native.hasEnabledAccessibilityServices ftsStub envEnumFail.native =
        PResult.resolve false) :=
  ⟨rfl, c5_enum_failure ftsStub envEnumFail.native rfl⟩

/-- Claim C6 (code evaluation): the module's own `getFeedbackTypeNames`
does satisfy the claimed derivation — flags 0 give `["None"]`, flags
9 give `["Spoken", "Visual"]` in canonical order — but
`createServiceInfoMap` never calls it: the `feedbackTypeNames` entry of
every returned service map is the framework `feedbackTypeToString`
output (`fts`), a single string rather than the documented name
sequence. -/
theorem c6_feedback_names (fts : Nat → String) (svc : OsService)
    (h : svc.feedbackType = 0) :
    getFeedbackTypeNames 0 = ["None"] ∧
    getFeedbackTypeNames 9 = ["Spoken", "Visual"] ∧
    (createServiceInfoMap fts svc).feedbackTypeNames = fts 0 := by
  refine ⟨by decide, by decide, ?_⟩
  simp [createServiceInfoMap, h]

/-- Witness for `c6_feedback_names`. -/
theorem c6_feedback_names_witness :
    sampleService.feedbackType = 0 ∧
    (getFeedbackTypeNames 0 = ["None"] ∧
      getFeedbackTypeNames 9 = ["Spoken", "Visual"] ∧
      (createServiceInfoMap ftsStub sampleService).feedbackTypeNames = ftsStub 0) :=
  ⟨rfl, c6_feedback_names ftsStub sampleService rfl⟩

/-- Claim C7 (counterexample): on Android API 32, two back-to-back
`addAccessibilityServicesListener` calls issued while IDLE perform zero
OS listener registrations — not exactly one — although the listener
count still reaches 2 after both resolve. -/
theorem c7_counterexample :
    (Wrapper.backToBackAdd envAndroid32 SysState.init).2.native.armCount = 0 ∧
    (Wrapper.backToBackAdd envAndroid32 SysState.init).2.listenerCount = 2 := by
  decide

/-- Claim C7 (amended): on Android API ≥ 33 with the arm succeeding,
two back-to-back `addAccessibilityServicesListener` calls issued while
IDLE both invoke native `startListening` (the wrapper itself has no
in-flight guard), but exactly one OS-level listener registration is
performed — the second native call is a no-op on the `isListening`
guard — and the listener count equals 2 after both resolve. -/
theorem c7_back_to_back (env : Env)
    (hos : env.os = "android") (hapi : 33 ≤ env.native.apiLevel)
    (harm : env.native.armThrows = false) :
    (Wrapper.backToBackAdd env SysState.init).2.native.armCount = 1 ∧
    (Wrapper.backToBackAdd env SysState.init).2.native.startCalls = 2 ∧
    (Wrapper.backToBackAdd env SysState.init).2.listenerCount = 2 ∧
    (Wrapper.backToBackAdd env SysState.init).1 =
      (PResult.resolve (some 0), PResult.resolve (some 1)) := by
  simp [Wrapper.backToBackAdd, hos, Native.startListening, hapi, harm,
    Wrapper.resumeAdd, Wrapper.registerSub, SysState.init, NativeState.init]

/-- Witness for `c7_back_to_back`. -/
theorem c7_back_to_back_witness :
    (envAndroid33.os = "android" ∧ 33 ≤ envAndroid33.native.apiLevel ∧
      envAndroid33.native.armThrows = false) ∧
    ((Wrapper.backToBackAdd envAndroid33 SysState.init).2.native.armCount = 1 ∧
      (Wrapper.backToBackAdd envAndroid33 SysState.init).2.native.startCalls = 2 ∧
      (Wrapper.backToBackAdd envAndroid33 SysState.init).2.listenerCount = 2 ∧
      (Wrapper.backToBackAdd envAndroid33 SysState.init).1 =
        (PResult.resolve (some 0), PResult.resolve (some 1))) :=
  ⟨by decide, c7_back_to_back envAndroid33 (by decide) (by decide) (by decide)⟩

/-- An unsupported-platform environment. -/
def envIos : Env :=
  { os := "ios"
    native := { apiLevel := 17, armThrows := false, disarmThrows := false,
                enumThrows := false, services := [] } }

/-- Claim C8 (confirmed): on a non-Android platform every wrapper
operation returns its empty identity value — resolved `[]` for the
enumeration query, resolved `false` for the boolean query, 0 for the
listener count, `false` for `getIsListening`, resolved `null` with the
state untouched for `addAccessibilityServicesListener`, resolved void
with the state untouched for `startListening` and `stopListening`, and
an unchanged state for `removeAccessibilityServicesListener` — and none
of them rejects. -/
theorem c8_unsupported_platform (env : Env) (fts : Nat → String)
    (s : SysState) (sub : Option Nat) (h : env.os ≠ "android") :
    Wrapper.getEnabledAccessibilityServices env fts = PResult.resolve [] ∧
    Wrapper.hasEnabledAccessibilityServices env fts = PResult.resolve false ∧
    Wrapper.getListenerCount env s = 0 ∧
    Wrapper.getIsListening env s = false ∧
    Wrapper.addAccessibilityServicesListener env s = (PResult.resolve none, s) ∧
    Wrapper.startListening env s = (PResult.resolve (), s) ∧
    Wrapper.stopListening env s = (PResult.resolve (), s) ∧
    Wrapper.removeAccessibilityServicesListener env sub s = s := by
  simp [Wrapper.getEnabledAccessibilityServices, Wrapper.hasEnabledAccessibilityServices,
    Wrapper.getListenerCount, Wrapper.getIsListening,
    Wrapper.addAccessibilityServicesListener, Wrapper.startListening,
    Wrapper.stopListening, Wrapper.removeAccessibilityServicesListener, h]

/-- Witness for `c8_unsupported_platform`. -/
theorem c8_unsupported_platform_witness :
    envIos.os ≠ "android" ∧
    (Wrapper.getEnabledAccessibilityServices envIos ftsStub = PResult.resolve [] ∧
      Wrapper.hasEnabledAccessibilityServices envIos ftsStub = PResult.resolve false ∧
      Wrapper.getListenerCount envIos SysState.init = 0 ∧
      Wrapper.getIsListening envIos SysState.init = false ∧
      Wrapper.addAccessibilityServicesListener envIos SysState.init =
        (PResult.resolve none, SysState.init) ∧
      Wrapper.startListening envIos SysState.init = (PResult.resolve (), SysState.init) ∧
      Wrapper.stopListening envIos SysState.init = (PResult.resolve (), SysState.init) ∧
      Wrapper.removeAccessibilityServicesListener envIos (some 0) SysState.init =
        SysState.init) :=
  ⟨by decide, c8_unsupported_platform envIos ftsStub SysState.init (some 0) (by decide)⟩

/-- Claim C9 (confirmed): `hasEnabledAccessibilityServices` resolves
`true` exactly when `getEnabledAccessibilityServices` resolves a
non-empty list — in every environment: on either platform branch, for
every OS registry, and whether or not the enumeration call throws. -/
theorem c9_has_iff_nonempty (env : Env) (fts : Nat → String) :
    Wrapper.hasEnabledAccessibilityServices env fts = PResult.resolve true ↔
      ∃ l, Wrapper.getEnabledAccessibilityServices env fts = PResult.resolve l ∧
        l ≠ [] := by
  by_cases h : env.os ≠ "android"
  · simp [Wrapper.hasEnabledAccessibilityServices,
      Wrapper.getEnabledAccessibilityServices, h]
  · simp only [Wrapper.hasEnabledAccessibilityServices,
      Wrapper.getEnabledAccessibilityServices, Native.hasEnabledAccessibilityServices,
      Native.getEnabledAccessibilityServices, if_neg h, PResult.resolve.injEq]
    constructor
    · intro hb
      refine ⟨Native.getEnabledAccessibilityServicesInfo fts env.native, rfl, ?_⟩
      intro he
      rw [he] at hb
      simp at hb
    · rintro ⟨l, hl, hne⟩
      rw [← hl] at hne
      simp [List.isEmpty_iff, hne]

/-- Claim C10 (confirmed): on Android API < 33, a native
`startListening` call from a non-listening state resolves successfully,
registers no OS change listener, leaves the listening flag unset, and
`getIsListening` still returns `false` afterwards. -/
theorem c10_api_below_33 (env : NativeEnv) (s : NativeState)
    (hapi : env.apiLevel < 33) (h : s.isListening = false) :
    (Native.startListening env s).1 = PResult.resolve () ∧
    (Native.startListening env s).2.isListening = false ∧
    (Native.startListening env s).2.armCount = s.armCount ∧
    (Native.startListening env s).2.changeListener = s.changeListener ∧
    Native.getIsListening (Native.startListening env s).2 = false := by
  have hapi2 : ¬ 33 ≤ env.apiLevel := by omega
  simp [Native.startListening, Native.getIsListening, h, hapi2]

/-- Witness for `c10_api_below_33`. -/
theorem c10_api_below_33_witness :
    (envAndroid32.native.apiLevel < 33 ∧ NativeState.init.isListening = false) ∧
    ((Native.startListening envAndroid32.native NativeState.init).1 =
        PResult.resolve () ∧
      (Native.startListening envAndroid32.native NativeState.init).2.isListening = false ∧
      (Native.startListening envAndroid32.native NativeState.init).2.armCount =
        NativeState.init.armCount ∧
      (Native.startListening envAndroid32.native NativeState.init).2.changeListener =
        NativeState.init.changeListener ∧
      Native.getIsListening
        (Native.startListening envAndroid32.native NativeState.init).2 = false) :=
  ⟨by decide, c10_api_below_33 envAndroid32.native NativeState.init (by decide) (by decide)⟩

end ASD





